import Mathlib

/-
  Verification of the Fox_ETL aggregation/ingestion core.

  Shallow embedding of the Python/SQL code of the repository:
  * calendar arithmetic of the TPY aggregators
    (src/aggregators/throughput/aggregate_tpy_all_time_daily.py and
     aggregate_tpy_all_time_weekly.py), mirroring CPython's `datetime`
    for `weekday`, `isocalendar` and the ISO-week reconstruction;
  * the first-pass-yield and throughput-yield SQL of the weekly TPY job;
  * the packing / pchart aggregation SQL and their upsert semantics;
  * the deduplicating workstation importer (src/loaders/import_workstation_file.py)
    with PostgreSQL's three-valued NULL equality;
  * the row-skipping snfn aggregator
    (src/aggregators/historical/testboard/aggregate_snfn_reports_all_time.py);
  * the orchestration cycle (src/schedulers/AutoAggregator.py) and the
    exit-code / File_Monitor returncode contract of the import jobs.

  Dates are proleptic-Gregorian ordinals (day 1 = 0001-01-01, a Monday, as in
  CPython's `date.toordinal`).  Timestamps are seconds since 0001-01-01T00:00.
  Rationals replace Python floats; `round2` models Python's `round(x, 2)`
  (ties, which Python resolves half-to-even on binary floats, do not occur in
  any fact proved here).
-/

namespace FoxETL

/-- Leap year test of the proleptic Gregorian calendar
(CPython `datetime._is_leap`). -/
def isLeap (y : Nat) : Bool :=
  (y % 4 == 0 && y % 100 != 0) || y % 400 == 0

/-- Days in the year before the first of each month, non-leap years
(CPython `_DAYS_BEFORE_MONTH`). -/
def daysBeforeMonthTable : Nat → Nat
  | 1 => 0 | 2 => 31 | 3 => 59 | 4 => 90 | 5 => 120 | 6 => 151
  | 7 => 181 | 8 => 212 | 9 => 243 | 10 => 273 | 11 => 304 | 12 => 334
  | _ => 0

/-- Number of days in month `m` of year `y` (CPython `_days_in_month`). -/
def daysInMonth (y m : Nat) : Nat :=
  if m = 2 then (if isLeap y then 29 else 28)
  else if m = 4 ∨ m = 6 ∨ m = 9 ∨ m = 11 then 30 else 31

/-- Days in year `y` before the first of month `m`
(CPython `_days_before_month`). -/
def daysBeforeMonth (y m : Nat) : Nat :=
  daysBeforeMonthTable m + (if 2 < m ∧ isLeap y then 1 else 0)

/-- Days before January 1 of year `y`
(CPython `_days_before_year`: `y*365 + y//4 - y//100 + y//400` at `y-1`). -/
def daysBeforeYear (y : Nat) : Nat :=
  365 * (y - 1) + (y - 1) / 4 - (y - 1) / 100 + (y - 1) / 400

/-- Proleptic-Gregorian ordinal of a calendar date, as a natural number
(day 1 = 0001-01-01; CPython `_ymd2ord`). -/
def ordOf (y m d : Nat) : Nat :=
  daysBeforeYear y + daysBeforeMonth y m + d

/-- The same ordinal as an integer, for the ISO-week arithmetic which
subtracts freely. -/
def ymd2ord (y m d : Nat) : Int :=
  (ordOf y m d : Int)

/-- Predicate: `(y, m, d)` is a representable calendar date. -/
def ValidDate (y m d : Nat) : Prop :=
  1 ≤ y ∧ 1 ≤ m ∧ m ≤ 12 ∧ 1 ≤ d ∧ d ≤ daysInMonth y m

instance decValidDate (y m d : Nat) : Decidable (ValidDate y m d) := by
  unfold ValidDate; infer_instance

/-- Python `date.weekday()`: Monday = 0 … Sunday = 6, on ordinals. -/
def pyWeekday (o : Int) : Int :=
  (o + 6) % 7

/-- The function `get_week_bounds` of aggregate_tpy_all_time_daily.py: the Monday and the
Sunday of the week containing the date with ordinal `o`. -/
def get_week_bounds (o : Int) : Int × Int :=
  (o - pyWeekday o, o - pyWeekday o + 6)

/-- Ordinal of the Monday starting ISO week 1 of ISO year `y`
(CPython `_isoweek1monday`). -/
def isoweek1monday (y : Nat) : Int :=
  let firstday := ymd2ord y 1 1
  let firstweekday := (firstday + 6) % 7
  let week1monday := firstday - firstweekday
  if 3 < firstweekday then week1monday + 7 else week1monday

/-- The (ISO year, ISO week) components of `date.isocalendar()`
(CPython `date.isocalendar`, day-of-week component dropped). -/
def isocalendarYearWeek (y m d : Nat) : Nat × Int :=
  let today := ymd2ord y m d
  let week := Int.fdiv (today - isoweek1monday y) 7
  if week < 0 then
    (y - 1, Int.fdiv (today - isoweek1monday (y - 1)) 7 + 1)
  else if 52 ≤ week ∧ isoweek1monday (y + 1) ≤ today then
    (y + 1, 1)
  else
    (y, week + 1)

/-- The function `get_week_id` of both TPY jobs: the week identifier `"YYYY-Www"`,
modelled as the (ISO year, ISO week) pair the string is formatted from
(the formatting/parsing round trip is lossless). -/
def get_week_id (y m d : Nat) : Nat × Int :=
  isocalendarYearWeek y m d

/-- The function `get_week_date_range` of aggregate_tpy_all_time_weekly.py: start and end
ordinals recovered from a week identifier via January 4 of the ISO year. -/
def get_week_date_range (wid : Nat × Int) : Int × Int :=
  let jan4 := ymd2ord wid.1 1 4
  let week_start := jan4 - pyWeekday jan4 + 7 * (wid.2 - 1)
  (week_start, week_start + 6)

/-- Seconds since 0001-01-01T00:00 of the midnight opening the day with
ordinal `d` (PostgreSQL's cast of a `date` to `timestamp`). -/
def tsOfOrd (d : Nat) : Nat :=
  (d - 1) * 86400

/-- Ordinal of `DATE(ts)` for a timestamp in seconds. -/
def dateOfTs (ts : Nat) : Nat :=
  ts / 86400 + 1

/-- PostgreSQL `EXTRACT(DOW FROM ts)`: Sunday = 0 … Saturday = 6.
Ordinal 7 (0001-01-07) is a Sunday, so this is the ordinal mod 7. -/
def pgDow (d : Nat) : Nat :=
  d % 7

/-- Python `round(x, 2)`.  (Exact ties, where Python's float round is
half-to-even, do not occur in any statement below.) -/
def round2 (q : ℚ) : ℚ :=
  (round (q * 100) : ℚ) / 100

/-- One row of `workstation_master_log`, restricted to the columns the
aggregations read.  `service_flow` and `history_station_end_time` are the
nullable columns the aggregation SQL guards with `IS NOT NULL`. -/
structure WRow where
  sn : String
  pn : String
  model : String
  workstation_name : String
  service_flow : Option String
  history_station_passing_status : String
  history_station_end_time : Option Nat
deriving DecidableEq

/-- The WHERE clause shared by the weekly-TPY queries of
aggregate_tpy_all_time_weekly.py:
`history_station_end_time >= week_start AND < week_end + 1 day`,
`service_flow NOT IN ('NC Sort', 'RO') AND service_flow IS NOT NULL`,
`workstation_name != 'SORTING'`.  `ws`, `we` are the week's Monday and
Sunday as date ordinals. -/
def fpyRowQualifies (ws we : Nat) (r : WRow) : Bool :=
  match r.history_station_end_time, r.service_flow with
  | some t, some sf =>
      decide (tsOfOrd ws ≤ t) && decide (t < tsOfOrd (we + 1)) &&
      !(sf == "NC Sort" || sf == "RO") && r.workstation_name != "SORTING"
  | _, _ => false

/-- Rows surviving the weekly-FPY WHERE clause. -/
def fpyRows (ws we : Nat) (rows : List WRow) : List WRow :=
  rows.filter (fpyRowQualifies ws we)

/-- The `GROUP BY sn, model` key list of the `part_analysis` CTE: the
distinct (sn, model) pairs among qualifying rows. -/
def fpyGroups (ws we : Nat) (rows : List WRow) : List (String × String) :=
  ((fpyRows ws we rows).map (fun r => (r.sn, r.model))).dedup

/-- SQL `COUNT(CASE WHEN workstation_name = 'PACKING' THEN 1 END)` of one
(sn, model) group. -/
def reachedPacking (ws we : Nat) (rows : List WRow) (g : String × String) : Nat :=
  (fpyRows ws we rows).countP
    (fun r => (r.sn, r.model) == g && r.workstation_name == "PACKING")

/-- SQL `COUNT(CASE WHEN history_station_passing_status != 'Pass' THEN 1 END)`
of one (sn, model) group. -/
def failureCount (ws we : Nat) (rows : List WRow) (g : String × String) : Nat :=
  (fpyRows ws we rows).countP
    (fun r => (r.sn, r.model) == g && r.history_station_passing_status != "Pass")

/-- The five counters selected from `part_analysis` by
`calculate_weekly_first_pass_yield_from_raw`. -/
structure FPYCounts where
  partsStarted : Nat
  firstPassSuccess : Nat
  partsCompleted : Nat
  partsFailed : Nat
  partsStuckInLimbo : Nat
deriving DecidableEq

/-- The outer SELECT of `calculate_weekly_first_pass_yield_from_raw`. -/
def fpyCounts (ws we : Nat) (rows : List WRow) : FPYCounts :=
  let gs := fpyGroups ws we rows
  { partsStarted := gs.length
    firstPassSuccess := gs.countP
      (fun g => decide (0 < reachedPacking ws we rows g) &&
                decide (failureCount ws we rows g = 0))
    partsCompleted := gs.countP (fun g => decide (0 < reachedPacking ws we rows g))
    partsFailed := gs.countP (fun g => decide (0 < failureCount ws we rows g))
    partsStuckInLimbo := gs.countP
      (fun g => decide (reachedPacking ws we rows g = 0) &&
                decide (failureCount ws we rows g = 0)) }

/-- The sum `active_parts = parts_completed + parts_failed` of the Python driver. -/
def activeParts (c : FPYCounts) : Nat :=
  c.partsCompleted + c.partsFailed

/-- The value `traditional.firstPassYield` as returned by
`calculate_weekly_first_pass_yield_from_raw` (0 when no part started). -/
def traditionalFPY (c : FPYCounts) : ℚ :=
  if 0 < c.partsStarted then
    round2 ((c.firstPassSuccess : ℚ) / c.partsStarted * 100)
  else 0

/-- The value `completedOnly.firstPassYield` as returned by
`calculate_weekly_first_pass_yield_from_raw`. -/
def completedOnlyFPY (c : FPYCounts) : ℚ :=
  if 0 < c.partsStarted then
    if 0 < activeParts c then
      round2 ((c.firstPassSuccess : ℚ) / (activeParts c) * 100)
    else 0
  else 0

/-- Modelled from the spec's words, for comparison with `activeParts`:
the number of distinct (sn, model) groups in-window that reached `PACKING`
or recorded at least one non-passing event, a group that did both counted
exactly once. -/
def specCompletedOnlyDenominator (ws we : Nat) (rows : List WRow) : Nat :=
  (fpyGroups ws we rows).countP
    (fun g => decide (0 < reachedPacking ws we rows g) ||
              decide (0 < failureCount ws we rows g))

/-- Groups counted by both `parts_completed` and `parts_failed`: they
reached `PACKING` and also recorded a failure. -/
def completedAndFailed (ws we : Nat) (rows : List WRow) : Nat :=
  (fpyGroups ws we rows).countP
    (fun g => decide (0 < reachedPacking ws we rows g) &&
              decide (0 < failureCount ws we rows g))

/-- The WHERE clause of `calculate_model_specific_throughput_yields`:
the weekly-FPY filters plus
`(model IN ('Tesla SXM4', 'Tesla SXM5') OR model = 'SXM6')`. -/
def tpyRowQualifies (ws we : Nat) (r : WRow) : Bool :=
  fpyRowQualifies ws we r &&
  (r.model == "Tesla SXM4" || r.model == "Tesla SXM5" || r.model == "SXM6")

/-- Rows feeding the model-specific throughput-yield query. -/
def tpyRows (ws we : Nat) (rows : List WRow) : List WRow :=
  rows.filter (tpyRowQualifies ws we)

/-- One `GROUP BY model, workstation_name` result of
`calculate_model_specific_throughput_yields`: total and passed row counts.
The query's `HAVING COUNT(*) >= 1` holds for every emitted group. -/
structure StationYield where
  model : String
  station : String
  totalParts : Nat
  passedParts : Nat
deriving DecidableEq

/-- The grouped result set of `calculate_model_specific_throughput_yields`
(one entry per distinct in-window (model, workstation) pair). -/
def modelYields (ws we : Nat) (rows : List WRow) : List StationYield :=
  (((tpyRows ws we rows).map (fun r => (r.model, r.workstation_name))).dedup).map
    (fun g =>
      { model := g.1
        station := g.2
        totalParts := (tpyRows ws we rows).countP
          (fun r => (r.model, r.workstation_name) == g)
        passedParts := (tpyRows ws we rows).countP
          (fun r => (r.model, r.workstation_name) == g &&
                    r.history_station_passing_status == "Pass") })

/-- The `throughputYield` stored per station:
`round(passed / total * 100, 2)`. -/
def throughputYieldPct (e : StationYield) : ℚ :=
  round2 ((e.passedParts : ℚ) / e.totalParts * 100)

/-- Dictionary lookup `model_yields[model][station]`. -/
def lookupStation (ys : List StationYield) (m s : String) : Option StationYield :=
  ys.find? (fun e => e.model == m && e.station == s)

/-- The fixed four-station sequence per model family in
`calculate_hardcoded_tpy` (`SXM4`: VI2→ASSY2→FI→FQC;
`SXM5`/`SXM6`: BBD→ASSY2→FI→FQC). -/
def hardcodedStations (fam : String) : List String :=
  if fam = "SXM4" then ["VI2", "ASSY2", "FI", "FQC"]
  else ["BBD", "ASSY2", "FI", "FQC"]

/-- The `model_yields` dictionary key per family
(`Tesla SXM4`, `Tesla SXM5`, plain `SXM6`). -/
def modelKey (fam : String) : String :=
  if fam = "SXM6" then "SXM6" else "Tesla " ++ fam

/-- The function `calculate_hardcoded_tpy` for one family: collect the per-station
`throughputYield / 100` fractions of the stations present in the week's
yields; only when all four are present, `round(product * 100, 2)`,
otherwise the tpy stays `None`. -/
def hardcodedTPY (ys : List StationYield) (fam : String) : Option ℚ :=
  let vals := (hardcodedStations fam).filterMap
    (fun st => (lookupStation ys (modelKey fam) st).map
      (fun e => throughputYieldPct e / 100))
  if vals.length = 4 then some (round2 (vals.foldl (· * ·) 1 * 100)) else none

/-- One row of the `packing_daily_summary` derived table
(key `(pack_date, model, part_number)`). -/
structure PackRow where
  pack_date : Nat
  model : String
  part_number : String
  packed_count : Nat
deriving DecidableEq

/-- The weekend-collapsing CASE of the packing aggregation SQL:
`EXTRACT(DOW) = 6` (Saturday) shifts one day back, `EXTRACT(DOW) = 0`
(Sunday) two days back, other days are unchanged. -/
def shiftPackDate (d : Nat) : Nat :=
  if pgDow d = 6 then d - 1
  else if pgDow d = 0 then d - 2
  else d

/-- Row filter of the recent packing aggregation
(src/aggregators/recent/workstation/aggregate_packing_daily.py):
`workstation_name = 'PACKING' AND history_station_passing_status = 'Pass'
AND history_station_end_time >= CURRENT_DATE - INTERVAL '7 days'`. -/
def packingDailyQualifies (today : Nat) (r : WRow) : Bool :=
  match r.history_station_end_time with
  | some t =>
      r.workstation_name == "PACKING" &&
      r.history_station_passing_status == "Pass" &&
      decide (tsOfOrd (today - 7) ≤ t)
  | none => false

/-- The grouped SELECT of the recent packing aggregation: one output row per
distinct (shifted pack_date, model, pn) with its event count. -/
def packingWindowAgg (today : Nat) (raw : List WRow) : List PackRow :=
  let rows := raw.filter (packingDailyQualifies today)
  ((rows.filterMap
      (fun r => r.history_station_end_time.map
        (fun t => (shiftPackDate (dateOfTs t), r.model, r.pn)))).dedup).map
    (fun k =>
      { pack_date := k.1
        model := k.2.1
        part_number := k.2.2
        packed_count := rows.countP
          (fun r => match r.history_station_end_time with
            | some t => (shiftPackDate (dateOfTs t), r.model, r.pn) == k
            | none => false) })

/-- The function `main` of aggregate_packing_daily.py as a table
transformer.  The script defines `TRUNCATE_TABLE_SQL`, `AGGREGATE_SQL`
and `INSERT_SQL`, but the first statement of `main`,
`cur.execute(CREATE_TABLE_SQL)`, references a name defined nowhere in the
file: Python raises `NameError` there, before any SQL is issued, and the
`except Exception` handler prints the error and rolls back the (empty)
transaction.  The run therefore leaves `packing_daily_summary` exactly as
it was — nothing is truncated, recomputed or upserted. -/
def recentPackingMain (_today : Nat) (_raw : List WRow) (table : List PackRow) :
    List PackRow :=
  table

/-- One row of the pchart daily derived table.  The target table of
aggregate_pchart_daily.py is `workstation_pchart_daily`; `create_pchart_table`
in the same file declares the five-column primary key
`(date, pn, model, workstation_name, service_flow)`. -/
structure PchartRow where
  date : Nat
  pn : String
  model : String
  workstation_name : String
  service_flow : String
  total_count : Nat
  pass_count : Nat
  fail_count : Nat
deriving DecidableEq

/-- The conflict target of the pchart upsert:
`ON CONFLICT (date, pn, workstation_name, service_flow)` — note the
`model` column of the primary key is not part of it. -/
def pchartConflictKey (r : PchartRow) : Nat × String × String × String :=
  (r.date, r.pn, r.workstation_name, r.service_flow)

/-- The five-column primary key declared by `create_pchart_table`. -/
def pchartPrimaryKeyColumns : List String :=
  ["date", "pn", "model", "workstation_name", "service_flow"]

/-- The columns assigned by the pchart `DO UPDATE SET` clause. -/
def pchartUpdateAssignedColumns : List String :=
  ["total_count", "pass_count", "fail_count", "model"]

/-- WHERE clause of the pchart daily aggregation:
`history_station_end_time IS NOT NULL`, `service_flow NOT IN ('NC Sort','RO')
AND service_flow IS NOT NULL`, and the trailing window
`history_station_end_time >= CURRENT_DATE - INTERVAL '6 days' AND
history_station_end_time <= CURRENT_DATE`. -/
def pchartQualifies (today : Nat) (r : WRow) : Bool :=
  match r.history_station_end_time, r.service_flow with
  | some t, some sf =>
      !(sf == "NC Sort" || sf == "RO") &&
      decide (tsOfOrd (today - 6) ≤ t) && decide (t ≤ tsOfOrd today)
  | _, _ => false

/-- The grouped SELECT of the pchart daily aggregation: one row per distinct
`(DATE(end_time), pn, model, workstation_name, service_flow)` with total,
pass and fail counts. -/
def pchartAgg (today : Nat) (raw : List WRow) : List PchartRow :=
  let rows := raw.filter (pchartQualifies today)
  let key : WRow → Nat × String × String × String × String := fun r =>
    (dateOfTs (r.history_station_end_time.getD 0), r.pn, r.model,
      r.workstation_name, r.service_flow.getD "")
  ((rows.map key).dedup).map
    (fun k =>
      { date := k.1
        pn := k.2.1
        model := k.2.2.1
        workstation_name := k.2.2.2.1
        service_flow := k.2.2.2.2
        total_count := rows.countP (fun r => key r == k)
        pass_count := rows.countP
          (fun r => key r == k && r.history_station_passing_status == "Pass")
        fail_count := rows.countP
          (fun r => key r == k && r.history_station_passing_status != "Pass") })

/-- SQL `INSERT ... ON CONFLICT (date, pn, workstation_name, service_flow)
DO UPDATE SET total_count, pass_count, fail_count, model` applied to one
incoming row: an existing row at the same conflict key keeps its key
columns and receives the new measures and the new `model`; otherwise the
row is appended. -/
def pchartUpsertOne (table : List PchartRow) (n : PchartRow) : List PchartRow :=
  if table.any (fun r => pchartConflictKey r == pchartConflictKey n) then
    table.map (fun r =>
      if pchartConflictKey r == pchartConflictKey n then
        { r with total_count := n.total_count, pass_count := n.pass_count,
                 fail_count := n.fail_count, model := n.model }
      else r)
  else table ++ [n]

/-- The whole pchart upsert statement over its source rows. -/
def pchartUpsert (table : List PchartRow) (news : List PchartRow) : List PchartRow :=
  news.foldl pchartUpsertOne table

/-- The function `aggregate_daily_data` of aggregate_pchart_daily.py as a table
transformer: recompute the trailing window from the raw log and upsert it
into the derived table. -/
def pchartDailyRun (today : Nat) (raw : List WRow) (table : List PchartRow) :
    List PchartRow :=
  pchartUpsert table (pchartAgg today raw)

/-- One mapped row of the workstation importer
(src/loaders/import_workstation_file.py, `mapped_row`).  The importer
builds every field with `str(...)` except `customer_pn` (blank coerced to
`None`) and the three timestamps (`None` when missing, the start time
backfilled from the end time). -/
structure ImpRow where
  sn : String
  pn : String
  customer_pn : Option String
  workstation_name : String
  history_station_start_time : Option Nat
  history_station_end_time : Option Nat
  hours : String
  service_flow : String
  model : String
  history_station_passing_status : String
  passing_station_method : String
  operator : String
  first_station_start_time : Option Nat
  data_source : String
deriving DecidableEq

/-- SQL equality `column = parameter` under three-valued logic: the WHERE
condition is satisfied only when it evaluates to TRUE, and a comparison
with a NULL on either side never does. -/
def sqlEq {α : Type} [BEq α] : Option α → Option α → Bool
  | some a, some b => a == b
  | _, _ => false

/-- The duplicate-existence check of the importer (`check_query`): all 14
mapped columns compared with SQL `=` against the candidate row's values. -/
def impRowSqlMatches (e r : ImpRow) : Bool :=
  e.sn == r.sn && e.pn == r.pn &&
  sqlEq e.customer_pn r.customer_pn &&
  e.workstation_name == r.workstation_name &&
  sqlEq e.history_station_start_time r.history_station_start_time &&
  sqlEq e.history_station_end_time r.history_station_end_time &&
  e.hours == r.hours && e.service_flow == r.service_flow &&
  e.model == r.model &&
  e.history_station_passing_status == r.history_station_passing_status &&
  e.passing_station_method == r.passing_station_method &&
  e.operator == r.operator &&
  sqlEq e.first_station_start_time r.first_station_start_time &&
  e.data_source == r.data_source

/-- Pandas `drop_duplicates` with default `keep='first'` (Python-side
equality, where two `None`s are equal): every row equal to an earlier row
is dropped. -/
def dedupKeepFirst : List ImpRow → List ImpRow
  | [] => []
  | a :: as => a :: (dedupKeepFirst as).filter (fun b => b ≠ a)

/-- One run of `main` of import_workstation_file.py over an already-mapped
file, as a transformer of `workstation_master_log`: drop in-file
duplicates, keep the rows the existence check does not find in the table,
insert them. -/
def importWorkstationFile (fileRows : List ImpRow) (table : List ImpRow) :
    List ImpRow :=
  let mapped := dedupKeepFirst fileRows
  let newRecords := mapped.filter
    (fun r => !(table.any (fun e => impRowSqlMatches e r)))
  table ++ newRecords

/-- One aggregated snfn failure-report row
(aggregate_snfn_reports_all_time.py, historical testboard variant).
`snfn_aggregate_daily` declares `fixture_no`, `workstation_name`, `sn`,
`model`, `error_code` and `history_station_end_time` NOT NULL; the source
columns of `testboard_master_log` are nullable, so those fields stay
`Option` here. -/
structure SnfnRow where
  fixture_no : Option String
  workstation_name : Option String
  sn : Option String
  pn : Option String
  model : Option String
  error_code : Option String
  error_disc : Option String
  history_station_end_time : Nat
deriving DecidableEq

/-- A single-row insert into `snfn_aggregate_daily` succeeds exactly when
no NOT NULL constraint of the table is violated. -/
def snfnRowInsertOk (r : SnfnRow) : Bool :=
  r.fixture_no.isSome && r.workstation_name.isSome && r.sn.isSome &&
  r.model.isSome && r.error_code.isSome

/-- The upsert key of the snfn insert:
`ON CONFLICT (sn, fixture_no, model, workstation_name, error_code,
history_station_end_time)`. -/
def snfnKey (r : SnfnRow) :
    Option String × Option String × Option String × Option String ×
      Option String × Nat :=
  (r.sn, r.fixture_no, r.model, r.workstation_name, r.error_code,
    r.history_station_end_time)

/-- One successful single-row snfn insert (`DO UPDATE SET error_code,
error_disc, pn` on a key conflict, plain append otherwise). -/
def snfnUpsertOne (table : List SnfnRow) (n : SnfnRow) : List SnfnRow :=
  if table.any (fun r => snfnKey r == snfnKey n) then
    table.map (fun r =>
      if snfnKey r == snfnKey n then
        { r with error_code := n.error_code, error_disc := n.error_disc,
                 pn := n.pn }
      else r)
  else table ++ [n]

/-- The row-by-row insert loop of `main`: the table was truncated and the
truncation committed before the loop, so the transaction starts empty.  A
failing insert triggers `conn.rollback()`, which discards every row
inserted since the last commit (not just the failed statement), then a new
cursor continues with the remaining rows; the final `conn.commit()`
persists what survived.  Returns (committed table contents,
success_count, error_count). -/
def snfnProcessRows (rows : List SnfnRow) : List SnfnRow × Nat × Nat :=
  rows.foldl
    (fun acc r =>
      if snfnRowInsertOk r then (snfnUpsertOne acc.1 r, acc.2.1 + 1, acc.2.2)
      else ([], acc.2.1, acc.2.2 + 1))
    ([], 0, 0)

/-- The `run_script` result of one orchestrator job: `true` when the subprocess
exited 0 (`subprocess.run(..., check=True)` raised otherwise). -/
abbrev JobResult := Bool

/-- Running one script group of `run_cycle`: jobs run in order until the
first failure; returns (number of jobs executed, group succeeded). -/
def runGroup : List JobResult → Nat × Bool
  | [] => (0, true)
  | j :: rest =>
      if j then ((runGroup rest).1 + 1, (runGroup rest).2)
      else (1, false)

/-- The function `run_cycle`: the testboard group runs first; on its failure the cycle
returns immediately and no workstation job runs; otherwise the
workstation group runs the same way. -/
def runCycle (tb wsj : List JobResult) : Nat × Bool :=
  if (runGroup tb).2 then
    ((runGroup tb).1 + (runGroup wsj).1, (runGroup wsj).2)
  else ((runGroup tb).1, false)

/-- What one iteration of `start`'s `while True` loop can observe. -/
inductive CycleOutcome where
  | completed (ok : Bool)
  | raised
  | interrupted
deriving DecidableEq

/-- One iteration of `start`: `run_cycle`'s boolean result is ignored and
the loop sleeps `wait_time = 120` seconds and continues; an unhandled
exception is caught, logged and followed by the same sleep; only
`KeyboardInterrupt` breaks the loop.  Returns (seconds slept before the
next cycle, loop continues). -/
def orchestratorStep : CycleOutcome → Nat × Bool
  | .completed _ => (120, true)
  | .raised => (120, true)
  | .interrupted => (0, false)

/-- Exit code of `main` of import_workstation_file.py: `sys.exit(1)` on a
wrong argument count or a missing file; the whole import body is wrapped
in `try/except`, whose handler prints and rolls back without re-raising
or setting an exit code, so the process exits 0 whether `importOk` (no
exception while parsing/inserting) holds or not. -/
def importWorkstationExit (argvOk fileFound _importOk : Bool) : Nat :=
  if !argvOk then 1
  else if !fileFound then 1
  else 0

/-- Whether the import transaction was committed in that run (the
exception handler rolls it back). -/
def importWorkstationCommitted (argvOk fileFound importOk : Bool) : Bool :=
  argvOk && fileFound && importOk

/-- The function `process_file` of File_Monitor.py, result handling: `result.returncode == 0`
is logged and returned as success, anything else as failure. -/
def fileMonitorClassifiesSuccess (returncode : Nat) : Bool :=
  returncode == 0

/-- Timestamp (seconds) of `hour`:00 on a calendar day. -/
def tsAt (y m d hour : Nat) : Nat :=
  tsOfOrd (ordOf y m d) + hour * 3600

/-- Monday of the example week 2024-12-30 … 2025-01-05 (ISO 2025-W01). -/
def exWeekStart : Nat := ordOf 2024 12 30

/-- Sunday of the example week. -/
def exWeekEnd : Nat := ordOf 2025 1 5

/-- A raw-log row of the FPY example. -/
def exRow (sn ws st : String) (t : Nat) : WRow :=
  { sn := sn, pn := "P1", model := "M1", workstation_name := ws,
    service_flow := some "Mass Production",
    history_station_passing_status := st,
    history_station_end_time := some t }

/-- The spec's 10-serial FPY scenario inside the example week: serials
S1–S6 reach `PACKING` cleanly, S7 and S8 reach `PACKING` after one
failure, S9 fails without packing, S10 has started (one passing `VI2`
event) but has neither completed nor failed. -/
def fpyExampleRows : List WRow :=
  [ exRow "S1" "PACKING" "Pass" (tsAt 2025 1 2 10),
    exRow "S2" "PACKING" "Pass" (tsAt 2025 1 2 10),
    exRow "S3" "PACKING" "Pass" (tsAt 2025 1 2 10),
    exRow "S4" "PACKING" "Pass" (tsAt 2025 1 2 10),
    exRow "S5" "PACKING" "Pass" (tsAt 2025 1 2 10),
    exRow "S6" "PACKING" "Pass" (tsAt 2025 1 2 10),
    exRow "S7" "FI" "Fail" (tsAt 2025 1 1 9),
    exRow "S7" "PACKING" "Pass" (tsAt 2025 1 2 10),
    exRow "S8" "FI" "Fail" (tsAt 2025 1 1 9),
    exRow "S8" "PACKING" "Pass" (tsAt 2025 1 2 10),
    exRow "S9" "FI" "Fail" (tsAt 2025 1 2 10),
    exRow "S10" "VI2" "Pass" (tsAt 2025 1 2 10) ]

/-- Packing events of the weekend-shift example: Saturday 2025-01-04
10:00, Sunday 2025-01-05, Monday 2025-01-06, all passing `PACKING`
events. -/
def packingExampleRows : List WRow :=
  [ exRow "PK1" "PACKING" "Pass" (tsAt 2025 1 4 10),
    exRow "PK2" "PACKING" "Pass" (tsAt 2025 1 5 0),
    exRow "PK3" "PACKING" "Pass" (tsAt 2025 1 6 0) ]

/-- Four passing rows giving `Tesla SXM4` data at each of its four
hardcoded TPY stations in the example week. -/
def tpyExampleRows : List WRow :=
  [ { exRow "T1" "VI2" "Pass" (tsAt 2025 1 2 8) with model := "Tesla SXM4" },
    { exRow "T2" "ASSY2" "Pass" (tsAt 2025 1 2 8) with model := "Tesla SXM4" },
    { exRow "T3" "FI" "Pass" (tsAt 2025 1 2 8) with model := "Tesla SXM4" },
    { exRow "T4" "FQC" "Pass" (tsAt 2025 1 2 8) with model := "Tesla SXM4" } ]

/-- A `packing_daily_summary` row dated 2025-01-03, far outside the
trailing window of a June run. -/
def exOldPackRow : PackRow :=
  { pack_date := ordOf 2025 1 3, model := "M1", part_number := "P1",
    packed_count := 5 }

/-- A pre-existing pchart row dated 2025-01-03. -/
def exOldPchartRow : PchartRow :=
  { date := ordOf 2025 1 3, pn := "P1", model := "A",
    workstation_name := "FI", service_flow := "Mass Production",
    total_count := 4, pass_count := 3, fail_count := 1 }

/-- An in-window pchart aggregation row carrying the same conflict key as
`exOldPchartRow` up to date, but another `model`. -/
def exNewPchartRow : PchartRow :=
  { date := ordOf 2025 1 3, pn := "P1", model := "B",
    workstation_name := "FI", service_flow := "Mass Production",
    total_count := 7, pass_count := 6, fail_count := 1 }

/-- A mapped importer row whose `customer_pn` was blank in the source file
and was therefore coerced to NULL. -/
def exImpRowNullCpn : ImpRow :=
  { sn := "SN1", pn := "PN1", customer_pn := none,
    workstation_name := "FI",
    history_station_start_time := some (tsAt 2025 1 2 8),
    history_station_end_time := some (tsAt 2025 1 2 9),
    hours := "1.0", service_flow := "Mass Production", model := "M1",
    history_station_passing_status := "Pass",
    passing_station_method := "Auto", operator := "op1",
    first_station_start_time := none, data_source := "workstation" }

/-- A valid snfn failure row. -/
def exSnfnRow (sn : String) : SnfnRow :=
  { fixture_no := some "FX1", workstation_name := some "BBD",
    sn := some sn, pn := some "PN1", model := some "Tesla SXM5",
    error_code := some "EC123", error_disc := some "note",
    history_station_end_time := tsAt 2025 1 2 9 }

/-- An snfn row violating the `model` NOT NULL constraint of
`snfn_aggregate_daily`, so its single-row insert fails. -/
def exSnfnBadRow : SnfnRow :=
  { exSnfnRow "B1" with model := none }

/-- The importer row with every nullable compared field non-null. -/
def exImpRowFull : ImpRow :=
  { sn := "SN1", pn := "PN1", customer_pn := some "CPN1",
    workstation_name := "FI",
    history_station_start_time := some (tsAt 2025 1 2 8),
    history_station_end_time := some (tsAt 2025 1 2 9),
    hours := "1.0", service_flow := "Mass Production", model := "M1",
    history_station_passing_status := "Pass",
    passing_station_method := "Auto", operator := "op1",
    first_station_start_time := some (tsAt 2025 1 2 7),
    data_source := "workstation" }

/-! ## Calendar lemmas -/

lemma daysBeforeMonth_one (y : Nat) : daysBeforeMonth y 1 = 0 := by
  simp [daysBeforeMonth, daysBeforeMonthTable]

lemma daysBeforeYear_succ (y : Nat) (hy : 1 ≤ y) :
    daysBeforeYear (y + 1) =
      daysBeforeYear y + (if isLeap y then 366 else 365) := by
  obtain ⟨n, rfl⟩ : ∃ n, y = n + 1 := ⟨y - 1, by omega⟩
  simp only [daysBeforeYear, isLeap, Nat.add_sub_cancel, Bool.or_eq_true,
    Bool.and_eq_true, beq_iff_eq, bne_iff_ne, ne_eq]
  rw [Nat.succ_div, Nat.succ_div, Nat.succ_div]
  split_ifs <;> omega

lemma ordOf_lower (y m d : Nat) (h : ValidDate y m d) :
    daysBeforeYear y + 1 ≤ ordOf y m d := by
  obtain ⟨-, -, -, hd1, -⟩ := h
  unfold ordOf
  omega

lemma ordOf_upper (y m d : Nat) (h : ValidDate y m d) :
    ordOf y m d ≤ daysBeforeYear (y + 1) := by
  obtain ⟨hy, hm1, hm2, hd1, hd2⟩ := h
  rw [daysBeforeYear_succ y hy]
  unfold ordOf
  cases hL : isLeap y <;> interval_cases m <;>
    simp [daysBeforeMonth, daysBeforeMonthTable, daysInMonth, hL] at hd2 ⊢ <;>
    omega

lemma isoweek1monday_emod (y : Nat) : isoweek1monday y % 7 = 1 := by
  simp only [isoweek1monday, ymd2ord, ordOf, daysBeforeMonth_one]
  split_ifs <;> omega

lemma isoweek1monday_ge (y : Nat) :
    (daysBeforeYear y : Int) - 2 ≤ isoweek1monday y := by
  simp only [isoweek1monday, ymd2ord, ordOf, daysBeforeMonth_one]
  split_ifs <;> omega

lemma isoweek1monday_le (y : Nat) :
    isoweek1monday y ≤ (daysBeforeYear y : Int) + 4 := by
  simp only [isoweek1monday, ymd2ord, ordOf, daysBeforeMonth_one]
  split_ifs <;> omega

lemma jan4_monday (y : Nat) :
    ymd2ord y 1 4 - pyWeekday (ymd2ord y 1 4) = isoweek1monday y := by
  simp only [isoweek1monday, ymd2ord, ordOf, daysBeforeMonth_one, pyWeekday]
  split_ifs <;> omega

/-- C10: for every calendar date, the Monday/Sunday bounds computed
directly by `get_week_bounds` of the daily TPY job coincide with the
bounds recovered by `get_week_date_range` from the ISO week identifier
produced by `get_week_id`, across ISO-year boundaries included. -/
theorem week_id_roundtrip (y m d : Nat) (h : ValidDate y m d) :
    get_week_date_range (get_week_id y m d) = get_week_bounds (ymd2ord y m d) := by
  have hlow := ordOf_lower y m d h
  have hhigh := ordOf_upper y m d h
  have hy : 1 ≤ y := h.1
  simp only [get_week_id, isocalendarYearWeek]
  rw [Int.fdiv_eq_ediv (ymd2ord y m d - isoweek1monday y) (by norm_num)]
  split_ifs with hc1 hc2
  · -- CPython's `week < 0` branch: the date sits in the last ISO week of
    -- the previous ISO year.
    rw [Int.fdiv_eq_ediv (ymd2ord y m d - isoweek1monday (y - 1)) (by norm_num)]
    rcases Nat.lt_or_ge y 2 with hy2 | hy2
    · exfalso
      have hwm : isoweek1monday 1 = 1 := by decide
      have hdb : daysBeforeYear 1 = 0 := by decide
      interval_cases y
      simp only [ymd2ord] at hc1
      omega
    · obtain ⟨n, rfl⟩ : ∃ n, y = n + 2 := ⟨y - 2, by omega⟩
      have hsub : n + 2 - 1 = n + 1 := by omega
      rw [hsub]
      have hstep : daysBeforeYear (n + 1) + 365 ≤ daysBeforeYear (n + 2) := by
        have h2 := daysBeforeYear_succ (n + 1) (by omega)
        have h3 : n + 1 + 1 = n + 2 := by omega
        rw [h3] at h2
        split_ifs at h2 <;> omega
      have hmod := isoweek1monday_emod (n + 1)
      have hle := isoweek1monday_le (n + 1)
      simp only [get_week_date_range, get_week_bounds]
      rw [jan4_monday]
      simp only [pyWeekday, ymd2ord] at *
      rw [Prod.mk.injEq]
      constructor <;> omega
  · -- CPython's `week >= 52` rollover: the date already belongs to ISO
    -- week 1 of the next ISO year.
    obtain ⟨hweek, hnext⟩ := hc2
    have hmod := isoweek1monday_emod (y + 1)
    have hge := isoweek1monday_ge (y + 1)
    simp only [get_week_date_range, get_week_bounds]
    rw [jan4_monday]
    simp only [pyWeekday, ymd2ord] at *
    rw [Prod.mk.injEq]
    constructor <;> omega
  · -- Plain branch: ISO week of the date's own ISO year.
    have hmod := isoweek1monday_emod y
    simp only [get_week_date_range, get_week_bounds]
    rw [jan4_monday]
    simp only [pyWeekday, ymd2ord] at *
    rw [Prod.mk.injEq]
    constructor <;> omega

/-- Witness for C10 at the ISO-year-boundary date 2024-12-30 (a Monday of
ISO week 2025-W01). -/
theorem week_id_roundtrip_witness :
    ValidDate 2024 12 30 ∧
      get_week_date_range (get_week_id 2024 12 30) =
        get_week_bounds (ymd2ord 2024 12 30) :=
  ⟨by decide, week_id_roundtrip 2024 12 30 (by decide)⟩

/-- C4: the packing aggregation attributes every passing `PACKING` event
to `shiftPackDate` of its end-time date; the shift subtracts 1 day on
Saturday (`DOW 6`), 2 days on Sunday (`DOW 0`) and nothing otherwise; in
particular events on 2025-01-04 10:00 and 2025-01-05 land on pack_date
2025-01-03 and an event on 2025-01-06 on 2025-01-06. -/
theorem packing_weekend_shift :
    (∀ dt : Nat,
      (pgDow dt = 6 → shiftPackDate dt = dt - 1) ∧
      (pgDow dt = 0 → shiftPackDate dt = dt - 2) ∧
      (pgDow dt ≠ 6 → pgDow dt ≠ 0 → shiftPackDate dt = dt)) ∧
    (∀ (today : Nat) (raw : List WRow) (r : WRow) (t : Nat), r ∈ raw →
      packingDailyQualifies today r = true →
      r.history_station_end_time = some t →
      ∃ p ∈ packingWindowAgg today raw,
        p.pack_date = shiftPackDate (dateOfTs t) ∧
        p.model = r.model ∧ p.part_number = r.pn) ∧
    shiftPackDate (ordOf 2025 1 4) = ordOf 2025 1 3 ∧
    shiftPackDate (ordOf 2025 1 5) = ordOf 2025 1 3 ∧
    shiftPackDate (ordOf 2025 1 6) = ordOf 2025 1 6 ∧
    packingWindowAgg (ordOf 2025 1 6) packingExampleRows =
      [ { pack_date := ordOf 2025 1 3, model := "M1", part_number := "P1",
          packed_count := 2 },
        { pack_date := ordOf 2025 1 6, model := "M1", part_number := "P1",
          packed_count := 1 } ] := by
  refine ⟨?_, ?_, by decide, by decide, by decide, by decide⟩
  · intro dt
    refine ⟨fun h6 => by simp [shiftPackDate, h6], fun h0 => ?_, fun h6 h0 => ?_⟩
    · have h6 : ¬ pgDow dt = 6 := by omega
      simp [shiftPackDate, h6, h0]
    · simp [shiftPackDate, h6, h0]
  · intro today raw r t hr hq ht
    have hrow : r ∈ raw.filter (packingDailyQualifies today) :=
      List.mem_filter.mpr ⟨hr, hq⟩
    have hkey : (shiftPackDate (dateOfTs t), r.model, r.pn) ∈
        ((raw.filter (packingDailyQualifies today)).filterMap
          (fun r => r.history_station_end_time.map
            (fun t => (shiftPackDate (dateOfTs t), r.model, r.pn)))).dedup := by
      rw [List.mem_dedup]
      refine List.mem_filterMap.mpr ⟨r, hrow, ?_⟩
      rw [ht]
      rfl
    simp only [packingWindowAgg]
    exact ⟨_, List.mem_map_of_mem _ hkey, rfl, rfl, rfl⟩

/-- Witness for C4: the Saturday example event, both through the
day-of-week case split and through the aggregation itself. -/
theorem packing_weekend_shift_witness :
    pgDow (ordOf 2025 1 4) = 6 ∧
    shiftPackDate (ordOf 2025 1 4) = ordOf 2025 1 4 - 1 ∧
    (exRow "PK1" "PACKING" "Pass" (tsAt 2025 1 4 10) ∈ packingExampleRows ∧
      ∃ p ∈ packingWindowAgg (ordOf 2025 1 6) packingExampleRows,
        p.pack_date = shiftPackDate (dateOfTs (tsAt 2025 1 4 10)) ∧
        p.model = (exRow "PK1" "PACKING" "Pass" (tsAt 2025 1 4 10)).model ∧
        p.part_number = (exRow "PK1" "PACKING" "Pass" (tsAt 2025 1 4 10)).pn) :=
  ⟨by decide, (packing_weekend_shift.1 (ordOf 2025 1 4)).1 (by decide),
    by decide,
    packing_weekend_shift.2.1 (ordOf 2025 1 6) packingExampleRows
      (exRow "PK1" "PACKING" "Pass" (tsAt 2025 1 4 10)) (tsAt 2025 1 4 10)
      (by decide) (by decide) rfl⟩

lemma countP_or_add_countP_and {α : Type} (l : List α) (p q : α → Bool) :
    l.countP (fun a => p a || q a) + l.countP (fun a => p a && q a) =
      l.countP p + l.countP q := by
  induction l with
  | nil => rfl
  | cons x xs ih =>
      by_cases hp : p x <;> by_cases hq : q x <;>
        simp [List.countP_cons, hp, hq] <;> omega

/-- C1 counterexample: on the spec's own 10-serial scenario the
completed-only denominator computed by the code (`parts_completed +
parts_failed`) is 11, not the 9 distinct serials that reached `PACKING`
or failed, because the two serials that did both are counted twice; the
resulting completed-only FPY is 54.55, not 66.67. -/
theorem fpy_completed_only_denominator_counterexample :
    activeParts (fpyCounts exWeekStart exWeekEnd fpyExampleRows) = 11 ∧
    specCompletedOnlyDenominator exWeekStart exWeekEnd fpyExampleRows = 9 ∧
    activeParts (fpyCounts exWeekStart exWeekEnd fpyExampleRows) ≠
      specCompletedOnlyDenominator exWeekStart exWeekEnd fpyExampleRows ∧
    completedOnlyFPY (fpyCounts exWeekStart exWeekEnd fpyExampleRows) = 5455 / 100 ∧
    round2 ((6 : ℚ) / 9 * 100) = 6667 / 100 ∧
    completedOnlyFPY (fpyCounts exWeekStart exWeekEnd fpyExampleRows) ≠ 6667 / 100 := by
  have hc : fpyCounts exWeekStart exWeekEnd fpyExampleRows =
      ⟨10, 6, 8, 3, 1⟩ := by decide
  refine ⟨by decide, by decide, by decide, ?_, ?_, ?_⟩
  · rw [hc]
    norm_num [completedOnlyFPY, activeParts, round2, round_eq]
  · norm_num [round2, round_eq]
  · rw [hc]
    norm_num [completedOnlyFPY, activeParts, round2, round_eq]

/-- C1 amended: the completed-only denominator of the weekly FPY equals
the number of (sn, model) groups that reached `PACKING` plus the number
that recorded a failure — a serial that did both is counted twice — and on
the spec's example the traditional FPY is 60 while the completed-only FPY
is 6/11 = 54.55. -/
theorem fpy_completed_only_denominator_amended :
    (∀ (ws we : Nat) (rows : List WRow),
      activeParts (fpyCounts ws we rows) =
        specCompletedOnlyDenominator ws we rows + completedAndFailed ws we rows) ∧
    fpyCounts exWeekStart exWeekEnd fpyExampleRows = ⟨10, 6, 8, 3, 1⟩ ∧
    activeParts (fpyCounts exWeekStart exWeekEnd fpyExampleRows) = 11 ∧
    traditionalFPY (fpyCounts exWeekStart exWeekEnd fpyExampleRows) = 60 ∧
    completedOnlyFPY (fpyCounts exWeekStart exWeekEnd fpyExampleRows) = 5455 / 100 := by
  have hc : fpyCounts exWeekStart exWeekEnd fpyExampleRows =
      ⟨10, 6, 8, 3, 1⟩ := by decide
  refine ⟨?_, hc, by decide, ?_, ?_⟩
  · intro ws we rows
    simp only [activeParts, fpyCounts, specCompletedOnlyDenominator,
      completedAndFailed]
    exact (countP_or_add_countP_and _ _ _).symm
  · rw [hc]
    norm_num [traditionalFPY, round2, round_eq]
  · rw [hc]
    norm_num [completedOnlyFPY, activeParts, round2, round_eq]

lemma lookupStation_modelYields_eq_none (ws we : Nat) (rows : List WRow)
    (m s : String)
    (h : ∀ r ∈ tpyRows ws we rows, ¬(r.model = m ∧ r.workstation_name = s)) :
    lookupStation (modelYields ws we rows) m s = none := by
  simp only [lookupStation, modelYields]
  rw [List.find?_eq_none]
  intro e he
  simp only [List.mem_map] at he
  obtain ⟨g, hg, rfl⟩ := he
  rw [List.mem_dedup] at hg
  simp only [List.mem_map] at hg
  obtain ⟨r, hr, rfl⟩ := hg
  have hmr := h r hr
  simp only [Bool.and_eq_true, beq_iff_eq, not_and] at hmr ⊢
  intro h1 h2
  exact hmr h1 h2

lemma length_filterMap_lt_of_none {α β : Type} (f : α → Option β)
    (l : List α) (a : α) (ha : a ∈ l) (hf : f a = none) :
    (l.filterMap f).length < l.length := by
  induction l with
  | nil => cases ha
  | cons x xs ih =>
      rcases List.mem_cons.mp ha with rfl | ha2
      · rw [List.filterMap_cons, hf]
        exact Nat.lt_succ_of_le (List.length_filterMap_le f xs)
      · rw [List.filterMap_cons]
        cases hfx : f x
        · exact Nat.lt_succ_of_lt (ih ha2)
        · simpa using Nat.succ_lt_succ (ih ha2)

lemma hardcodedStations_length (fam : String) :
    (hardcodedStations fam).length = 4 := by
  by_cases hf : fam = "SXM4" <;> simp [hardcodedStations, hf]

lemma hardcodedTPY_none_of_lookup_none (ys : List StationYield) (fam st : String)
    (hst : st ∈ hardcodedStations fam)
    (hnone : lookupStation ys (modelKey fam) st = none) :
    hardcodedTPY ys fam = none := by
  have hfa : (fun st => (lookupStation ys (modelKey fam) st).map
      (fun e => throughputYieldPct e / 100)) st = none := by
    dsimp only
    rw [hnone]
    rfl
  have hlt := length_filterMap_lt_of_none
    (fun st => (lookupStation ys (modelKey fam) st).map
      (fun e => throughputYieldPct e / 100))
    (hardcodedStations fam) st hst hfa
  rw [hardcodedStations_length] at hlt
  simp only [hardcodedTPY]
  rw [if_neg (by omega)]

lemma hardcodedTPY_of_lookups (ys : List StationYield) (fam : String)
    (e1 e2 e3 e4 : StationYield)
    (hmap : (hardcodedStations fam).map (lookupStation ys (modelKey fam)) =
      [some e1, some e2, some e3, some e4]) :
    hardcodedTPY ys fam =
      some (round2 (throughputYieldPct e1 / 100 * (throughputYieldPct e2 / 100) *
        (throughputYieldPct e3 / 100) * (throughputYieldPct e4 / 100) * 100)) := by
  have hsplit : hardcodedStations fam = ["VI2", "ASSY2", "FI", "FQC"] ∨
      hardcodedStations fam = ["BBD", "ASSY2", "FI", "FQC"] := by
    by_cases hf : fam = "SXM4"
    · exact Or.inl (by simp [hardcodedStations, hf])
    · exact Or.inr (by simp [hardcodedStations, hf])
  rcases hsplit with hs | hs <;>
  · rw [hs] at hmap
    simp only [List.map_cons, List.map_nil, List.cons.injEq, and_true] at hmap
    obtain ⟨h1, h2, h3, h4⟩ := hmap
    simp only [hardcodedTPY, hs, List.filterMap_cons, h1, h2, h3, h4,
      Option.map_some', List.filterMap_nil, List.length_cons, List.length_nil,
      List.foldl_cons, List.foldl_nil, if_true]
    rw [one_mul]

/-- C5: the hardcoded four-station weekly TPY (VI2, ASSY2, FI, FQC for
SXM4; BBD, ASSY2, FI, FQC for SXM5/SXM6) equals the product of the four
stations' throughput-yield fractions times 100, rounded to 2 decimals,
when all four stations were observed, and is null whenever one of the
four stations has no observed event for the model in the week. -/
theorem hardcoded_tpy_structure (ws we : Nat) (rows : List WRow)
    (fam : String) (hfam : fam ∈ ["SXM4", "SXM5", "SXM6"]) :
    (∀ e1 e2 e3 e4 : StationYield,
      (hardcodedStations fam).map
          (lookupStation (modelYields ws we rows) (modelKey fam)) =
        [some e1, some e2, some e3, some e4] →
      hardcodedTPY (modelYields ws we rows) fam =
        some (round2 (throughputYieldPct e1 / 100 * (throughputYieldPct e2 / 100) *
          (throughputYieldPct e3 / 100) * (throughputYieldPct e4 / 100) * 100))) ∧
    (∀ st, st ∈ hardcodedStations fam →
      (∀ r ∈ tpyRows ws we rows,
        ¬(r.model = modelKey fam ∧ r.workstation_name = st)) →
      hardcodedTPY (modelYields ws we rows) fam = none) := by
  clear hfam
  constructor
  · intro e1 e2 e3 e4 hmap
    exact hardcodedTPY_of_lookups _ fam e1 e2 e3 e4 hmap
  · intro st hst hno
    exact hardcodedTPY_none_of_lookup_none _ fam st hst
      (lookupStation_modelYields_eq_none ws we rows (modelKey fam) st hno)

/-- Witness for C5: the example week with all four SXM4 stations present
yields a TPY; with an empty raw log, VI2 is unobserved and the TPY is
null. -/
theorem hardcoded_tpy_structure_witness :
    ("SXM4" ∈ ["SXM4", "SXM5", "SXM6"]) ∧
    ((hardcodedStations "SXM4").map
        (lookupStation (modelYields exWeekStart exWeekEnd tpyExampleRows)
          (modelKey "SXM4")) =
      [some ⟨"Tesla SXM4", "VI2", 1, 1⟩, some ⟨"Tesla SXM4", "ASSY2", 1, 1⟩,
        some ⟨"Tesla SXM4", "FI", 1, 1⟩, some ⟨"Tesla SXM4", "FQC", 1, 1⟩]) ∧
    hardcodedTPY (modelYields exWeekStart exWeekEnd tpyExampleRows) "SXM4" =
      some (round2 (throughputYieldPct ⟨"Tesla SXM4", "VI2", 1, 1⟩ / 100 *
        (throughputYieldPct ⟨"Tesla SXM4", "ASSY2", 1, 1⟩ / 100) *
        (throughputYieldPct ⟨"Tesla SXM4", "FI", 1, 1⟩ / 100) *
        (throughputYieldPct ⟨"Tesla SXM4", "FQC", 1, 1⟩ / 100) * 100)) ∧
    hardcodedTPY (modelYields exWeekStart exWeekEnd []) "SXM4" = none :=
  ⟨by decide, by decide,
    (hardcoded_tpy_structure exWeekStart exWeekEnd tpyExampleRows "SXM4"
        (by decide)).1 _ _ _ _ (by decide),
    (hardcoded_tpy_structure exWeekStart exWeekEnd [] "SXM4" (by decide)).2
      "VI2" (by decide) (by intro r hr; simp [tpyRows] at hr)⟩

lemma pchartAgg_date_bounds (today : Nat) (raw : List WRow)
    (htoday : 1 ≤ today) (n : PchartRow) (hn : n ∈ pchartAgg today raw) :
    today - 6 ≤ n.date ∧ n.date ≤ today := by
  simp only [pchartAgg, List.mem_map] at hn
  obtain ⟨k, hk, rfl⟩ := hn
  rw [List.mem_dedup] at hk
  simp only [List.mem_map] at hk
  obtain ⟨r, hr, rfl⟩ := hk
  rw [List.mem_filter] at hr
  have hq := hr.2
  unfold pchartQualifies at hq
  cases het : r.history_station_end_time with
  | none => rw [het] at hq; cases hq
  | some t =>
      cases hsf : r.service_flow with
      | none => rw [het, hsf] at hq; cases hq
      | some sf =>
          rw [het, hsf] at hq
          simp only [Bool.and_eq_true, decide_eq_true_eq] at hq
          obtain ⟨⟨-, h1⟩, h2⟩ := hq
          simp only [het, Option.getD_some]
          unfold dateOfTs tsOfOrd at *
          constructor <;> omega

lemma pchartUpsertOne_mem (table : List PchartRow) (n p : PchartRow)
    (hp : p ∈ table) (hne : pchartConflictKey n ≠ pchartConflictKey p) :
    p ∈ pchartUpsertOne table n := by
  unfold pchartUpsertOne
  split_ifs with hc
  · refine List.mem_map.mpr ⟨p, hp, ?_⟩
    rw [if_neg]
    simp only [beq_iff_eq]
    exact fun hEq => hne hEq.symm
  · exact List.mem_append_left _ hp

lemma pchartUpsert_preserves (news : List PchartRow) (table : List PchartRow)
    (p : PchartRow) (hp : p ∈ table)
    (hk : ∀ n ∈ news, pchartConflictKey n ≠ pchartConflictKey p) :
    p ∈ pchartUpsert table news := by
  induction news generalizing table with
  | nil => exact hp
  | cons n rest ih =>
      exact ih (pchartUpsertOne table n)
        (pchartUpsertOne_mem table n p hp (hk n (List.mem_cons_self n rest)))
        (fun x hx => hk x (List.mem_cons_of_mem n hx))

/-- C3 counterexample: a run of the recent packing-daily job issues no
SQL at all (`main` dies on the undefined `CREATE_TABLE_SQL` and rolls
back), so in-window raw events are never recomputed into
`packing_daily_summary`: with three in-window passing `PACKING` events
the table stays empty, the aggregation row the claim says gets upserted
is absent, and a pre-existing table is returned verbatim. -/
theorem recent_packing_window_counterexample :
    recentPackingMain (ordOf 2025 1 6) packingExampleRows [] = [] ∧
    ({ pack_date := ordOf 2025 1 3, model := "M1", part_number := "P1",
        packed_count := 2 } : PackRow) ∈
      packingWindowAgg (ordOf 2025 1 6) packingExampleRows ∧
    ({ pack_date := ordOf 2025 1 3, model := "M1", part_number := "P1",
        packed_count := 2 } : PackRow) ∉
      recentPackingMain (ordOf 2025 1 6) packingExampleRows [] ∧
    recentPackingMain (ordOf 2025 6 2) packingExampleRows [exOldPackRow] =
      [exOldPackRow] := by
  refine ⟨by decide, by decide, by decide, by decide⟩

/-- C3 amended: the recent pchart-daily job recomputes only the trailing
window and upserts it with `ON CONFLICT ... DO UPDATE`, leaving every row
whose date lies outside the window untouched; the recent packing-daily
job performs no recomputation and no upsert at all — its `main` raises
`NameError` on the undefined `CREATE_TABLE_SQL` before issuing any SQL
and rolls back, leaving the whole table (in-window rows included)
unchanged. -/
theorem recent_window_jobs_amended :
    (∀ (today : Nat) (raw : List WRow) (table : List PackRow),
      recentPackingMain today raw table = table) ∧
    (∀ (today : Nat) (raw : List WRow) (table : List PchartRow)
        (p : PchartRow), 1 ≤ today → p ∈ table →
      (p.date < today - 6 ∨ today < p.date) →
      p ∈ pchartDailyRun today raw table) := by
  constructor
  · intro today raw table
    rfl
  · intro today raw table p htoday hp hout
    unfold pchartDailyRun
    refine pchartUpsert_preserves _ _ _ hp ?_
    intro n hn hEq
    have hb := pchartAgg_date_bounds today raw htoday n hn
    have hdate : n.date = p.date := congrArg Prod.fst hEq
    omega

/-- Witness for C3's amended statement: the pchart row of 2025-01-03
survives a June run of the pchart daily job unchanged. -/
theorem recent_window_jobs_amended_witness :
    1 ≤ ordOf 2025 6 2 ∧
    exOldPchartRow ∈ [exOldPchartRow] ∧
    (exOldPchartRow.date < ordOf 2025 6 2 - 6 ∨
      ordOf 2025 6 2 < exOldPchartRow.date) ∧
    exOldPchartRow ∈ pchartDailyRun (ordOf 2025 6 2) [] [exOldPchartRow] :=
  ⟨by decide, by decide, by decide,
    recent_window_jobs_amended.2 (ordOf 2025 6 2) [] [exOldPchartRow]
      exOldPchartRow (by decide) (by decide) (by decide)⟩

lemma pchartUpsertOne_keys (table : List PchartRow) (n : PchartRow) :
    List.IsPrefix (table.map pchartConflictKey)
      ((pchartUpsertOne table n).map pchartConflictKey) := by
  unfold pchartUpsertOne
  split_ifs with hc
  · rw [List.map_map]
    have hmap : List.map
        (pchartConflictKey ∘ fun r =>
          if pchartConflictKey r == pchartConflictKey n then
            { r with total_count := n.total_count, pass_count := n.pass_count,
                     fail_count := n.fail_count, model := n.model }
          else r) table = List.map pchartConflictKey table :=
      List.map_congr_left (fun r _ => by
        simp only [Function.comp_apply]
        split_ifs <;> rfl)
    rw [hmap]
  · rw [List.map_append]
    exact List.prefix_append _ _

lemma pchartUpsert_keys (news : List PchartRow) (table : List PchartRow) :
    List.IsPrefix (table.map pchartConflictKey)
      ((pchartUpsert table news).map pchartConflictKey) := by
  induction news generalizing table with
  | nil => exact List.prefix_refl _
  | cons n rest ih =>
      exact (pchartUpsertOne_keys table n).trans (ih (pchartUpsertOne table n))

/-- C8 counterexample: the pchart daily upsert's `DO UPDATE SET` clause
assigns `model = EXCLUDED.model`, a column of the table's five-column
primary key, and running it over an existing row with a different model
overwrites that row's model. -/
theorem pchart_upsert_key_overwrite_counterexample :
    "model" ∈ pchartUpdateAssignedColumns ∧
    "model" ∈ pchartPrimaryKeyColumns ∧
    exOldPchartRow.model = "A" ∧
    pchartUpsert [exOldPchartRow] [exNewPchartRow] = [exNewPchartRow] ∧
    (pchartUpsert [exOldPchartRow] [exNewPchartRow]).map
      (fun r => r.model) = ["B"] := by
  refine ⟨by decide, by decide, by decide, by decide, by decide⟩

/-- C8 amended: the pchart daily upsert assigns the three measure columns
and additionally `model`; its conflict target (date, pn,
workstation_name, service_flow) omits `model`, and those four
conflict-target columns of pre-existing rows are never reassigned (the
key list of the table is preserved as a prefix), while `model` — a
primary-key column — is overwritten. -/
theorem pchart_upsert_assigned_columns_amended :
    (∀ (table news : List PchartRow),
      List.IsPrefix (table.map pchartConflictKey)
        ((pchartUpsert table news).map pchartConflictKey)) ∧
    pchartUpdateAssignedColumns =
      ["total_count", "pass_count", "fail_count", "model"] ∧
    pchartPrimaryKeyColumns =
      ["date", "pn", "model", "workstation_name", "service_flow"] ∧
    pchartUpdateAssignedColumns.filter
      (fun c => pchartPrimaryKeyColumns.contains c) = ["model"] := by
  exact ⟨fun table news => pchartUpsert_keys news table, by decide, by decide,
    by decide⟩

/-- C2: importing the same file twice is NOT idempotent when a compared
field is NULL: the existence check compares `customer_pn = NULL`, which
is never TRUE in SQL, so the second run re-inserts the row and the raw
table ends with two copies instead of one. -/
theorem import_dedup_null_field_bug :
    importWorkstationFile [exImpRowNullCpn] [] = [exImpRowNullCpn] ∧
    importWorkstationFile [exImpRowNullCpn]
        (importWorkstationFile [exImpRowNullCpn] []) =
      [exImpRowNullCpn, exImpRowNullCpn] ∧
    (importWorkstationFile [exImpRowNullCpn]
        (importWorkstationFile [exImpRowNullCpn] [])).length = 2 ∧
    (importWorkstationFile [exImpRowNullCpn] []).length = 1 := by
  refine ⟨by decide, by decide, by decide, by decide⟩

/-- C2 positive side: on rows all of whose compared nullable fields are
non-null, the existence check does find an identical existing row, so
re-importing such a row inserts nothing. -/
theorem import_dedup_nonnull_idempotent (r : ImpRow)
    (h1 : r.customer_pn ≠ none) (h2 : r.history_station_start_time ≠ none)
    (h3 : r.history_station_end_time ≠ none)
    (h4 : r.first_station_start_time ≠ none) :
    importWorkstationFile [r] (importWorkstationFile [r] []) =
      importWorkstationFile [r] [] := by
  obtain ⟨c, hc⟩ := Option.ne_none_iff_exists'.mp h1
  obtain ⟨s, hs⟩ := Option.ne_none_iff_exists'.mp h2
  obtain ⟨e, he⟩ := Option.ne_none_iff_exists'.mp h3
  obtain ⟨f, hf⟩ := Option.ne_none_iff_exists'.mp h4
  simp [importWorkstationFile, dedupKeepFirst, impRowSqlMatches, sqlEq,
    hc, hs, he, hf]

/-- Witness for the non-null idempotence half of C2. -/
theorem import_dedup_nonnull_idempotent_witness :
    exImpRowFull.customer_pn ≠ none ∧
    importWorkstationFile [exImpRowFull]
        (importWorkstationFile [exImpRowFull] []) =
      importWorkstationFile [exImpRowFull] [] :=
  ⟨by decide,
    import_dedup_nonnull_idempotent exImpRowFull (by decide) (by decide)
      (by decide) (by decide)⟩

/-- C6: on a failing single-row insert the snfn aggregator calls
`conn.rollback()`, which discards the whole open transaction — including
every row successfully inserted since the last commit — before resuming
with a new cursor; only the rows after the last failure are committed.
Here the first good row A1 is lost, contradicting the claim that rows
inserted before the failure are retained. -/
theorem snfn_rollback_discards_prior_rows :
    snfnProcessRows [exSnfnRow "A1", exSnfnBadRow, exSnfnRow "C1"] =
      ([exSnfnRow "C1"], 2, 1) ∧
    exSnfnRow "A1" ∉
      (snfnProcessRows [exSnfnRow "A1", exSnfnBadRow, exSnfnRow "C1"]).1 := by
  refine ⟨by decide, by decide⟩

/-- C9: an import whose body raises (parse or database error) rolls the
transaction back but still exits 0, because the `except` handler neither
re-raises nor calls `sys.exit` with a nonzero code; File_Monitor's
`returncode == 0` check therefore classifies that failed import as a
success. -/
theorem import_exit_code_misclassifies_failure :
    importWorkstationExit true true false = 0 ∧
    importWorkstationCommitted true true false = false ∧
    fileMonitorClassifiesSuccess (importWorkstationExit true true false) = true ∧
    (∀ argvOk fileFound importOk : Bool,
      importWorkstationExit argvOk fileFound importOk =
        importWorkstationExit argvOk fileFound true) := by
  refine ⟨by decide, by decide, by decide, by decide⟩

lemma runGroup_fst_le (jobs : List JobResult) :
    (runGroup jobs).1 ≤ jobs.length := by
  induction jobs with
  | nil => simp [runGroup]
  | cons j rest ih =>
      cases j <;> simp [runGroup] <;> omega

lemma runGroup_ok_all (jobs : List JobResult)
    (h : (runGroup jobs).2 = true) :
    (runGroup jobs).1 = jobs.length ∧ ∀ j ∈ jobs, j = true := by
  induction jobs with
  | nil => simp [runGroup]
  | cons j rest ih =>
      cases j
      · simp [runGroup] at h
      · simp only [runGroup, if_true, List.length_cons] at h ⊢
        obtain ⟨h1, h2⟩ := ih h
        refine ⟨by omega, ?_⟩
        intro x hx
        rcases List.mem_cons.mp hx with rfl | hx2
        · rfl
        · exact h2 x hx2

lemma runGroup_stops (jobs : List JobResult) (i : Nat) (h : i < jobs.length)
    (hfail : jobs[i] = false) (hexec : i < (runGroup jobs).1) :
    (runGroup jobs).1 = i + 1 := by
  induction jobs generalizing i with
  | nil => simp at h
  | cons j rest ih =>
      cases j
      · simp only [runGroup, Bool.false_eq_true, if_false] at hexec ⊢
        omega
      · cases i with
        | zero => simp at hfail
        | succ i2 =>
            simp only [runGroup, if_true] at hexec ⊢
            have := ih i2 (by simpa using h) (by simpa using hfail) (by omega)
            omega

/-- C7: in every orchestrator cycle, once a job subprocess exits nonzero
no later job of the cycle executes (workstation jobs included when a
testboard job fails); and for every non-interrupt cycle outcome —
completed, aborted, or an unhandled exception caught by `start` — the
orchestrator sleeps the fixed 120 seconds and continues with the next
cycle instead of terminating. -/
theorem orchestrator_abort_and_continue :
    (∀ (tb wsj : List JobResult) (i : Nat) (h : i < (tb ++ wsj).length),
      (tb ++ wsj)[i] = false → i < (runCycle tb wsj).1 →
      (runCycle tb wsj).1 = i + 1) ∧
    (∀ oc : CycleOutcome, oc ≠ CycleOutcome.interrupted →
      orchestratorStep oc = (120, true)) := by
  constructor
  · intro tb wsj i h hfail hexec
    unfold runCycle at hexec ⊢
    by_cases hok : (runGroup tb).2 = true
    · rw [if_pos hok] at hexec ⊢
      obtain ⟨hlen, hall⟩ := runGroup_ok_all tb hok
      by_cases hi : i < tb.length
      · exfalso
        have : (tb ++ wsj)[i] = tb[i] := List.getElem_append_left hi
        rw [this] at hfail
        have := hall tb[i] (List.getElem_mem hi)
        rw [hfail] at this
        cases this
      · push_neg at hi
        have hj : i - tb.length < wsj.length := by
          rw [List.length_append] at h
          omega
        have hgr : (tb ++ wsj)[i] = wsj.get ⟨i - tb.length, hj⟩ :=
          List.getElem_append_right hi
        rw [hgr] at hfail
        have hstep := runGroup_stops wsj (i - tb.length) hj hfail (by omega)
        omega
    · rw [if_neg hok] at hexec ⊢
      have hle := runGroup_fst_le tb
      have hi : i < tb.length := by omega
      have : (tb ++ wsj)[i] = tb[i] := List.getElem_append_left hi
      rw [this] at hfail
      exact runGroup_stops tb i hi hfail hexec
  · intro oc hoc
    cases oc with
    | completed ok => rfl
    | raised => rfl
    | interrupted => exact absurd rfl hoc

/-- Witness for C7: in a cycle whose second testboard job fails, exactly
two jobs run (the sole workstation job is skipped), and the exception
outcome still sleeps 120 seconds and continues. -/
theorem orchestrator_abort_and_continue_witness :
    (([true, false] ++ [true]).get ⟨1, by decide⟩ = false ∧
      1 < (runCycle [true, false] [true]).1 ∧
      (runCycle [true, false] [true]).1 = 1 + 1) ∧
    (CycleOutcome.raised ≠ CycleOutcome.interrupted ∧
      orchestratorStep CycleOutcome.raised = (120, true)) :=
  ⟨⟨by decide, by decide,
      orchestrator_abort_and_continue.1 [true, false] [true] 1 (by decide)
        (by decide) (by decide)⟩,
    ⟨by decide,
      orchestrator_abort_and_continue.2 CycleOutcome.raised (by decide)⟩⟩

end FoxETL
